import Mathlib

/-!
Shallow embedding of `src/process.py` (layersplitter-processor).

The Python script is a single batch pass: it lists Firestore projects with
status "processing" and, for each project, runs
validate → remove_background → detect_objects → create_layers →
upload_to_backblaze → update_firestore, catching every exception at the
item boundary.

Modelling conventions:
- Python exceptions become `Except String` values; the broad
  `try/except` of the per-item loop body becomes an explicit `match`.
- Remote calls (Hugging Face inference, Backblaze storage, Firestore
  writes) are nondeterministic; their outcomes are supplied by a "world"
  record per item, and each modelled function also returns the trace of
  remote operations it attempted.
- Python `dict` records become structures with `Option` fields
  (`None`/absent key = `none`); Python truthiness tests (`if not x`,
  `if layer_urls`) are modelled exactly (empty string / empty list /
  empty bytes are falsy).
- Detection scores (floats that only flow through, never computed with)
  are modelled as `ℚ`.
- The spec's vocabulary maps onto the code's field names:
  itemId = projectId, ownerId = userId, sourceLocator = originalImageUrl,
  outputFormat = format, LayerDescriptor.kind = the "type" key.
-/

/-- One entry of the JSON list returned by the object-detection endpoint:
either a dict (with optional `label` and `score` keys) or a non-dict
value. -/
inductive DetObj where
  | dict (label : Option String) (score : Option ℚ)
  | other
deriving DecidableEq, Repr

/-- The value `detect_objects` hands to `create_layers`: `failed` is the
Python `None` returned when the call raised; `nonList` is any JSON value
that is not a list; `list` is a JSON list. -/
inductive Detection where
  | failed
  | nonList
  | list (objs : List DetObj)
deriving DecidableEq, Repr

/-- One layer dict built by `create_layers`: keys `name`, `type`, and
(for object layers only) `confidence`. -/
structure Layer where
  name : String
  type : String
  confidence : Option ℚ
deriving DecidableEq, Repr

/-- The unconditional first layer appended by `create_layers`. -/
def backgroundLayer : Layer :=
  { name := "Background", type := "background", confidence := none }

/-- The body of the `for i, obj in enumerate(objects[:10])` loop of
`create_layers`: `label = obj.get('label', 'Object') if isinstance(obj, dict)
else 'Object'`, likewise `score` defaulting to 0, then the layer dict
`{"name": f"Layer {i+1} - {label}", "type": "object", "confidence": score}`. -/
def layer_of_obj (i : Nat) (obj : DetObj) : Layer :=
  let label : String :=
    match obj with
    | .dict l _ => l.getD "Object"
    | .other => "Object"
  let score : ℚ :=
    match obj with
    | .dict _ s => s.getD 0
    | .other => 0
  { name := "Layer " ++ toString (i + 1) ++ " - " ++ label
    type := "object"
    confidence := some score }

/-- `create_layers(objects)` from `src/process.py`: one background layer,
then — only when `objects` is a (truthy, i.e. non-empty) list — one object
layer per entry of `objects[:10]`, in enumeration order. (An empty list
fails Python's `if objects and isinstance(objects, list) and len(objects) > 0`
guard and yields no object layers, which coincides with taking 10 of an
empty list.) -/
def create_layers (objects : Detection) : List Layer :=
  let objLayers : List Layer :=
    match objects with
    | .list objs => (objs.take 10).enum.map (fun p => layer_of_obj p.1 p.2)
    | _ => []
  backgroundLayer :: objLayers

/-- The detection entries `create_layers` iterates over: the list itself
when the input is a list, nothing otherwise. -/
def Detection.entries : Detection → List DetObj
  | .list objs => objs
  | _ => []

/-- A detection entry's effective score: the `score` value of a dict
(defaulting to 0 when the key is missing), 0 for a non-dict entry. -/
def DetObj.effScore : DetObj → ℚ
  | .dict _ s => s.getD 0
  | .other => 0

/-- One detected-object entry's effective label (see `layer_of_obj`). -/
def DetObj.effLabel : DetObj → String
  | .dict l _ => l.getD "Object"
  | .other => "Object"

/-- A project document as read from Firestore: the keys the loop body
accesses via `.get`, each possibly absent. -/
structure Project where
  projectId : Option String
  userId : Option String
  originalImageUrl : Option String
  format : Option String
deriving DecidableEq, Repr

/-- The JSON body returned by `b2_authorize_account` (the two keys
`upload_to_backblaze` reads). -/
structure AuthData where
  authorizationToken : String
  apiUrl : String
deriving DecidableEq, Repr

/-- Outcomes of the three Backblaze calls for one upload attempt:
`auth` is what `get_b2_auth()` returns (`none` when that call raised and
was caught inside it); `uploadUrlResp` is the `uploadUrl` of a successful
`b2_get_upload_url` response (`none` when it raised); `putOk` says whether
the final `requests.put` succeeded. -/
structure B2World where
  auth : Option AuthData
  uploadUrlResp : Option String
  putOk : Bool
deriving DecidableEq, Repr

/-- The serialized layer file built at Step 4 of the loop body (the
`processedAt` wall-clock string is supplied by the world). -/
structure Manifest where
  format : String
  layersCount : Nat
  layers : List Layer
  processedAt : String
deriving DecidableEq, Repr

/-- Remote operations, for tracing which external calls an item's
processing attempted. -/
inductive RemoteCall where
  | hfBackgroundRemoval
  | hfObjectDetection
  | b2Authorize
  | b2GetUploadUrl
  | b2Put
  | firestoreUpdate
deriving DecidableEq, Repr

/-- `upload_to_backblaze(file_content, file_name)`: authorize, get an
upload URL, `PUT` the content, and on success return the deterministic
download URL `https://f000.backblazeb2.com/file/{B2_BUCKET_ID}/{file_name}`.
Any failure is caught by the function's own `try/except` and yields `None`.
Also returns the trace of Backblaze calls attempted. -/
def upload_to_backblaze (bucketId : String) (w : B2World) (file_content : Manifest)
    (file_name : String) : Option String × List RemoteCall :=
  match w.auth with
  | none => (none, [.b2Authorize])
  | some _auth =>
    match w.uploadUrlResp with
    | none => (none, [.b2Authorize, .b2GetUploadUrl])
    | some _uploadUrl =>
      if w.putOk then
        let _ := file_content
        (some ("https://f000.backblazeb2.com/file/" ++ bucketId ++ "/" ++ file_name),
         [.b2Authorize, .b2GetUploadUrl, .b2Put])
      else (none, [.b2Authorize, .b2GetUploadUrl, .b2Put])

/-- The document-update payload assembled by `update_firestore`:
`status` and `updatedAt` always; `layerUrls`, `layersCount`, `completedAt`
only when `layer_urls` is truthy; `error` only when `error` is truthy.
`Option`/`Bool` fields model presence of the corresponding Firestore key
(`updatedAt`/`completedAt` carry server timestamps, so only presence is
modelled). -/
structure FirestorePayload where
  status : String
  updatedAt : Bool
  layerUrls : Option (List String)
  layersCount : Option Nat
  completedAt : Bool
  error : Option String
deriving DecidableEq, Repr

/-- Python truthiness of an optional list (`if layer_urls:`). -/
def truthyList (xs : Option (List String)) : Bool :=
  match xs with
  | none => false
  | some l => !l.isEmpty

/-- Python truthiness of an optional string (`if error:`). -/
def truthyStr (s : Option String) : Bool :=
  match s with
  | none => false
  | some str => !(str == "")

/-- The payload `update_firestore(project_id, status, layer_urls, error)`
writes (the write itself may fail; `update_firestore` catches and only
logs that, which the pipeline model records separately). -/
def update_firestore_payload (status : String) (layer_urls : Option (List String))
    (error : Option String) : FirestorePayload :=
  { status := status
    updatedAt := true
    layerUrls := if truthyList layer_urls then layer_urls else none
    layersCount := if truthyList layer_urls then some ((layer_urls.getD []).length) else none
    completedAt := truthyList layer_urls
    error := if truthyStr error then error else none }

/-- External-world outcomes for processing one item: `bgRemoval` is what
`remove_background` returns (`none` when it raised internally, otherwise
the response bytes — possibly empty); `detection` is what `detect_objects`
returns; `b2` drives the upload attempt; `statusWriteOk` says whether the
Firestore update succeeds; `now` is the `processedAt` wall-clock string. -/
structure ItemWorld where
  bgRemoval : Option (List Nat)
  detection : Detection
  b2 : B2World
  statusWriteOk : Bool
  now : String
deriving DecidableEq, Repr

/-- The `try:` block of the per-item loop (Steps 1–5): either the layer
list and layer-URL list reaching Step 6, or the message of the exception
that escaped, together with the name under which the manifest was
uploaded and the trace of inference/storage calls attempted. -/
def item_body (bucketId : String) (project : Project) (w : ItemWorld) :
    Except String (List Layer × List String) × Option (String × Manifest) × List RemoteCall :=
  let project_id := project.projectId.getD "unknown"
  let image_url := project.originalImageUrl.getD ""
  if image_url == "" then (.error "No image URL found", none, [])
  else
    -- Step 1: remove_background (its internal try/except returns None on error);
    -- `if not bg_removed` also fails on empty response bytes.
    match w.bgRemoval with
    | none => (.error "Background removal failed", none, [.hfBackgroundRemoval])
    | some bytes =>
      if bytes.isEmpty then (.error "Background removal failed", none, [.hfBackgroundRemoval])
      else
        -- Step 2: detect_objects (returns None on error, never raises out).
        let objects := w.detection
        -- Step 3: create_layers.
        let layers := create_layers objects
        -- Step 4: the layer file.
        let manifest : Manifest :=
          { format := project.format.getD "tiff"
            layersCount := layers.length
            layers := layers
            processedAt := w.now }
        -- Step 5: upload.
        let file_name :=
          "layers/" ++ project.userId.getD "unknown" ++ "/" ++ project_id ++ "/layers.json"
        match upload_to_backblaze bucketId w.b2 manifest file_name with
        | (none, t) =>
          (.error "Upload to Backblaze failed", none,
           [.hfBackgroundRemoval, .hfObjectDetection] ++ t)
        | (some b2_url, t) =>
          (.ok (layers, [b2_url]), some (file_name, manifest),
           [.hfBackgroundRemoval, .hfObjectDetection] ++ t)

/-- Result of processing one item: the terminal status written (Step 6 or
the `except` branch), the exact update payload, whether that Firestore
write itself succeeded, what was uploaded (if anything), and the trace of
remote calls. -/
structure ItemOutcome where
  finalStatus : String
  payload : FirestorePayload
  statusWriteOk : Bool
  uploaded : Option (String × Manifest)
  calls : List RemoteCall
deriving DecidableEq, Repr

/-- One iteration of `for i, project in enumerate(projects, 1)`: run the
`try:` block; on success write `completed` with the layer URLs, on any
exception fall to the `except` branch and write `failed` with the message.
Both ways `update_firestore` swallows its own write failure, so an
outcome is always produced. -/
def process_item (bucketId : String) (project : Project) (w : ItemWorld) : ItemOutcome :=
  match item_body bucketId project w with
  | (.ok (_layers, layer_urls), up, t) =>
    { finalStatus := "completed"
      payload := update_firestore_payload "completed" (some layer_urls) none
      statusWriteOk := w.statusWriteOk
      uploaded := up
      calls := t ++ [.firestoreUpdate] }
  | (.error msg, up, t) =>
    { finalStatus := "failed"
      payload := update_firestore_payload "failed" none (some msg)
      statusWriteOk := w.statusWriteOk
      uploaded := up
      calls := t ++ [.firestoreUpdate] }

/-- The whole batch loop: each listed project is processed in order, with
its own world of external outcomes. -/
def process_batch (bucketId : String) (items : List (Project × ItemWorld)) :
    List ItemOutcome :=
  items.map (fun pw => process_item bucketId pw.1 pw.2)

/-! ### Helper lemmas about the synthesizer -/

theorem create_layers_eq (d : Detection) :
    create_layers d =
      backgroundLayer :: (d.entries.take 10).enum.map (fun p => layer_of_obj p.1 p.2) := by
  cases d <;> rfl

theorem layer_of_obj_type (i : Nat) (o : DetObj) : (layer_of_obj i o).type = "object" := by
  cases o <;> rfl

theorem layer_of_obj_confidence (i : Nat) (o : DetObj) :
    (layer_of_obj i o).confidence = some o.effScore := by
  cases o <;> rfl

theorem obj_layers_filter_background (xs : List (Nat × DetObj)) :
    (xs.map (fun p => layer_of_obj p.1 p.2)).filter (fun l => l.type == "background") = [] := by
  induction xs with
  | nil => rfl
  | cons a t ih => simpa [List.filter_cons, layer_of_obj_type] using ih

theorem obj_layers_filter_object (xs : List (Nat × DetObj)) :
    (xs.map (fun p => layer_of_obj p.1 p.2)).filter (fun l => l.type == "object") =
      xs.map (fun p => layer_of_obj p.1 p.2) := by
  induction xs with
  | nil => rfl
  | cons a t ih => simp [List.filter_cons, layer_of_obj_type, ih]

/-- C3. Layer-list invariant: every output of `create_layers` has exactly one
background layer, it is the first element, there are at most 10 object
layers, and the object layer at position `j+1` is built from detection
entry `j` — the detector's output order, never re-sorted. -/
theorem create_layers_list_invariant (d : Detection) :
    ((create_layers d).filter (fun l => l.type == "background")).length = 1 ∧
    (create_layers d).head? = some backgroundLayer ∧
    ((create_layers d).filter (fun l => l.type == "object")).length ≤ 10 ∧
    (∀ j : Nat, j < 10 →
      (create_layers d)[j + 1]? = (d.entries[j]?).map (fun o => layer_of_obj j o)) := by
  refine ⟨?_, ?_, ?_, ?_⟩
  · rw [create_layers_eq]
    simp [List.filter_cons, backgroundLayer, obj_layers_filter_background]
  · rw [create_layers_eq]; rfl
  · rw [create_layers_eq]
    simp [List.filter_cons, backgroundLayer, obj_layers_filter_object]
  · intro j hj
    rw [create_layers_eq]
    simp only [List.getElem?_cons_succ, List.getElem?_map, List.getElem?_enum,
      List.getElem?_take, hj, if_pos]
    cases d.entries[j]? <;> rfl

/-- C3 witness: instantiating the invariant at a one-entry detection list. -/
theorem create_layers_list_invariant_witness :
    (create_layers (.list [DetObj.dict (some "cat") (some (9/10))]))[1]? =
      some (layer_of_obj 0 (DetObj.dict (some "cat") (some (9/10)))) := by
  have h := (create_layers_list_invariant
    (.list [DetObj.dict (some "cat") (some (9/10))])).2.2.2 0 (by decide)
  simpa [Detection.entries] using h

/-- C4. Truncation: a detection list with more than 10 entries yields
exactly 11 layers — the background plus object layers for precisely the
first 10 entries, in input order. -/
theorem create_layers_truncates (objs : List DetObj) (h : 10 < objs.length) :
    (create_layers (.list objs)).length = 11 ∧
    (create_layers (.list objs)).tail =
      (objs.take 10).enum.map (fun p => layer_of_obj p.1 p.2) ∧
    ∀ j : Nat, j < 10 →
      (create_layers (.list objs))[j + 1]? = (objs[j]?).map (fun o => layer_of_obj j o) := by
  refine ⟨?_, ?_, ?_⟩
  · rw [create_layers_eq]
    simp [Detection.entries]
    omega
  · rw [create_layers_eq]; rfl
  · intro j hj
    exact (create_layers_list_invariant (.list objs)).2.2.2 j hj

/-- C4 witness: an 11-entry detection list yields exactly 11 layers. -/
theorem create_layers_truncates_witness :
    (create_layers (.list (List.replicate 11 DetObj.other))).length = 11 :=
  (create_layers_truncates (List.replicate 11 DetObj.other) (by decide)).1

/-- C5. Synthesis totality: any input with no usable entries (a failed
call, a non-list JSON value, or an empty list all have no entries) yields
exactly the background layer, and entries with missing fields degrade to
label "Object" and score 0. (`create_layers` is a total Lean function, so
it never fails on any `Detection` input.) -/
theorem create_layers_total_default (d : Detection) :
    (d.entries = [] → create_layers d = [backgroundLayer]) ∧
    (∀ i : Nat,
      (layer_of_obj i DetObj.other).name = "Layer " ++ toString (i + 1) ++ " - " ++ "Object" ∧
      (layer_of_obj i DetObj.other).confidence = some 0 ∧
      (layer_of_obj i (DetObj.dict none none)).name =
        "Layer " ++ toString (i + 1) ++ " - " ++ "Object" ∧
      (layer_of_obj i (DetObj.dict none none)).confidence = some 0) := by
  refine ⟨fun h => ?_, fun i => ⟨rfl, rfl, rfl, rfl⟩⟩
  rw [create_layers_eq, h]
  rfl

/-- C5 witness: a failed detection call (Python `None`) synthesizes to the
background layer alone. -/
theorem create_layers_total_default_witness :
    create_layers .failed = [backgroundLayer] :=
  (create_layers_total_default .failed).1 rfl

/-- C9 counterexample: `create_layers` copies the detector's score into
`confidence` without clamping, so a detection entry with score 2 yields a
confidence outside [0,1] — the claim's range guarantee is false. -/
theorem confidence_unit_interval_counterexample :
    ¬ (∀ d : Detection, ∀ l ∈ create_layers d,
        ∀ c : ℚ, l.confidence = some c → 0 ≤ c ∧ c ≤ 1) := by
  intro h
  have hm : layer_of_obj 0 (DetObj.dict none (some 2)) ∈
      create_layers (.list [DetObj.dict none (some 2)]) := by
    rw [create_layers_eq]
    simp [Detection.entries]
  have h2 := h _ _ hm 2 rfl
  exact absurd h2.2 (by norm_num)

/-- C9 (amended). Confidence field contract: a layer carries a
`confidence` exactly when it is an object layer (never the background
layer); its value is the detection entry's score (0 when absent), so it
lies in [0,1] whenever every input entry's effective score does — the code
itself performs no clamping. -/
theorem confidence_field_contract (d : Detection) :
    (∀ l ∈ create_layers d, (l.confidence ≠ none ↔ l.type = "object")) ∧
    ((∀ o ∈ d.entries, 0 ≤ o.effScore ∧ o.effScore ≤ 1) →
      ∀ l ∈ create_layers d, ∀ c : ℚ, l.confidence = some c → 0 ≤ c ∧ c ≤ 1) := by
  constructor
  · intro l hl
    rw [create_layers_eq] at hl
    rcases List.mem_cons.mp hl with rfl | hm
    · simp [backgroundLayer]
    · obtain ⟨p, _, rfl⟩ := List.mem_map.mp hm
      simp [layer_of_obj_confidence, layer_of_obj_type]
  · intro hs l hl c hc
    rw [create_layers_eq] at hl
    rcases List.mem_cons.mp hl with rfl | hm
    · simp [backgroundLayer] at hc
    · obtain ⟨p, hp, rfl⟩ := List.mem_map.mp hm
      rw [layer_of_obj_confidence] at hc
      have hmem : p.2 ∈ d.entries := by
        rcases p with ⟨i, o⟩
        have := List.mk_mem_enum_iff_getElem?.mp hp
        exact List.mem_of_mem_take (List.getElem?_mem this)
      obtain ⟨h0, h1⟩ := hs p.2 hmem
      cases hc
      exact ⟨h0, h1⟩

/-- C9 witness: at a one-entry detection list with in-range score, the
object layer has a confidence, and it lies in [0,1]. -/
theorem confidence_field_contract_witness :
    ((layer_of_obj 0 (DetObj.dict (some "dog") (some (1/2)))).confidence ≠ none ↔
      (layer_of_obj 0 (DetObj.dict (some "dog") (some (1/2)))).type = "object") ∧
    (0 ≤ (1/2 : ℚ) ∧ (1/2 : ℚ) ≤ 1) := by
  have hm : layer_of_obj 0 (DetObj.dict (some "dog") (some (1/2))) ∈
      create_layers (.list [DetObj.dict (some "dog") (some (1/2))]) := by
    rw [create_layers_eq]
    simp [Detection.entries]
  refine ⟨(confidence_field_contract _).1 _ hm, ?_⟩
  refine (confidence_field_contract (.list [DetObj.dict (some "dog") (some (1/2))])).2 ?_ _ hm (1/2) ?_
  · intro o ho
    simp [Detection.entries] at ho
    subst ho
    norm_num [DetObj.effScore]
  · rfl

/-- The deterministic manifest file name the loop builds for an item
(`layers/{userId}/{projectId}/layers.json`). -/
def manifestFileName (ownerId itemId : String) : String :=
  "layers/" ++ ownerId ++ "/" ++ itemId ++ "/layers.json"

/-- C8. Upload idempotence: whenever two uploads under the same owner and
item ids succeed — whatever the worlds' auth tokens and upload URLs, and
whatever contents were uploaded — both return the same retrieval locator,
namely the deterministic URL built from the bucket id and the file name
alone. -/
theorem upload_locator_deterministic (bucketId ownerId itemId : String)
    (w w' : B2World) (c c' : Manifest) (u u' : String)
    (h : (upload_to_backblaze bucketId w c (manifestFileName ownerId itemId)).1 = some u)
    (h' : (upload_to_backblaze bucketId w' c' (manifestFileName ownerId itemId)).1 = some u') :
    u = u' ∧
    u = "https://f000.backblazeb2.com/file/" ++ bucketId ++ "/" ++
      manifestFileName ownerId itemId := by
  have hu : ∀ (w₀ : B2World) (c₀ : Manifest) (u₀ : String),
      (upload_to_backblaze bucketId w₀ c₀ (manifestFileName ownerId itemId)).1 = some u₀ →
      u₀ = "https://f000.backblazeb2.com/file/" ++ bucketId ++ "/" ++
        manifestFileName ownerId itemId := by
    intro w₀ c₀ u₀ h₀
    unfold upload_to_backblaze at h₀
    rcases w₀ with ⟨auth, url, put⟩
    cases auth with
    | none => simp at h₀
    | some a =>
      cases url with
      | none => simp at h₀
      | some v =>
        cases put with
        | false => simp at h₀
        | true => simpa using h₀.symm
  have h1 := hu w c u h
  have h2 := hu w' c' u' h'
  exact ⟨h1.trans h2.symm, h1⟩

/-- C8 witness: two concrete successful uploads with different tokens,
upload URLs, and contents yield the same locator. -/
theorem upload_locator_deterministic_witness :
    ("https://f000.backblazeb2.com/file/bkt/layers/u1/p1/layers.json" : String) =
      "https://f000.backblazeb2.com/file/bkt/layers/u1/p1/layers.json" ∧
    ("https://f000.backblazeb2.com/file/bkt/layers/u1/p1/layers.json" : String) =
      "https://f000.backblazeb2.com/file/" ++ "bkt" ++ "/" ++ manifestFileName "u1" "p1" := by
  exact upload_locator_deterministic "bkt" "u1" "p1"
    ⟨some ⟨"tokA", "apiA"⟩, some "upA", true⟩
    ⟨some ⟨"tokB", "apiB"⟩, some "upB", true⟩
    ⟨"tiff", 1, [backgroundLayer], "t1"⟩
    ⟨"png", 0, [], "t2"⟩
    "https://f000.backblazeb2.com/file/bkt/layers/u1/p1/layers.json"
    "https://f000.backblazeb2.com/file/bkt/layers/u1/p1/layers.json"
    rfl rfl

/-- C7. Empty-source validation: an item with an absent or empty
`originalImageUrl` raises "No image URL found" before any remote call, so
it is finalized as failed with that validation error in the payload,
nothing uploaded, and the only external call traced is the status write
itself. -/
theorem empty_source_validation (bucketId : String) (p : Project) (w : ItemWorld)
    (h : p.originalImageUrl = none ∨ p.originalImageUrl = some "") :
    (process_item bucketId p w).finalStatus = "failed" ∧
    (process_item bucketId p w).payload.error = some "No image URL found" ∧
    (process_item bucketId p w).uploaded = none ∧
    (process_item bucketId p w).calls = [RemoteCall.firestoreUpdate] := by
  have hurl : p.originalImageUrl.getD "" = "" := by
    rcases h with h | h <;> simp [h]
  simp [process_item, item_body, hurl, update_firestore_payload, truthyStr, truthyList]

/-- C7 witness: a concrete project document with no image URL. -/
theorem empty_source_validation_witness :
    (process_item "bkt" ⟨some "p9", some "u9", none, none⟩
      ⟨some [1], .failed, ⟨none, none, false⟩, true, "t"⟩).finalStatus = "failed" ∧
    (process_item "bkt" ⟨some "p9", some "u9", none, none⟩
      ⟨some [1], .failed, ⟨none, none, false⟩, true, "t"⟩).payload.error =
        some "No image URL found" ∧
    (process_item "bkt" ⟨some "p9", some "u9", none, none⟩
      ⟨some [1], .failed, ⟨none, none, false⟩, true, "t"⟩).uploaded = none ∧
    (process_item "bkt" ⟨some "p9", some "u9", none, none⟩
      ⟨some [1], .failed, ⟨none, none, false⟩, true, "t"⟩).calls =
        [RemoteCall.firestoreUpdate] :=
  empty_source_validation "bkt" _ _ (Or.inl rfl)

/-- C6. Detection failure is non-fatal: when validation passes and
background removal returns non-empty bytes but `detect_objects` fails
(returns Python `None`), the item is not aborted — the manifest is built
from the background layer alone, and with a successful upload the item is
finalized as completed. -/
theorem detection_failure_nonfatal (bucketId : String) (p : Project) (w : ItemWorld)
    (bytes : List Nat) (a : AuthData) (uurl : String)
    (hurl : p.originalImageUrl.getD "" ≠ "")
    (hbg : w.bgRemoval = some bytes) (hbytes : bytes ≠ [])
    (hdet : w.detection = .failed)
    (ha : w.b2.auth = some a) (hu : w.b2.uploadUrlResp = some uurl)
    (hput : w.b2.putOk = true) :
    (process_item bucketId p w).finalStatus = "completed" ∧
    ∃ fn m, (process_item bucketId p w).uploaded = some (fn, m) ∧
      m.layers = [backgroundLayer] := by
  rcases w with ⟨bg, det, b2, sw, now⟩
  rcases b2 with ⟨auth, upResp, put⟩
  simp only at hbg hdet ha hu hput
  subst hbg hdet ha hu hput
  have hb : ((p.originalImageUrl.getD "") == "") = false := beq_eq_false_iff_ne.mpr hurl
  have hbe : bytes.isEmpty = false := by
    cases bytes with
    | nil => exact absurd rfl hbytes
    | cons x t => rfl
  refine ⟨?_, ?_⟩
  · simp [process_item, item_body, hb, hbe, upload_to_backblaze]
  · refine ⟨"layers/" ++ p.userId.getD "unknown" ++ "/" ++ p.projectId.getD "unknown" ++
      "/layers.json",
      { format := p.format.getD "tiff", layersCount := 1, layers := [backgroundLayer],
        processedAt := now }, ?_, rfl⟩
    simp [process_item, item_body, hb, hbe, upload_to_backblaze, create_layers_eq,
      Detection.entries]

/-- C6 witness: a concrete item whose detection call failed still reaches
completed with a background-only manifest. -/
theorem detection_failure_nonfatal_witness :
    (process_item "bkt" ⟨some "p2", some "u2", some "https://x/a.png", none⟩
      ⟨some [7], .failed, ⟨some ⟨"tok", "api"⟩, some "up", true⟩, true, "t"⟩).finalStatus =
        "completed" ∧
    ∃ fn m,
      (process_item "bkt" ⟨some "p2", some "u2", some "https://x/a.png", none⟩
        ⟨some [7], .failed, ⟨some ⟨"tok", "api"⟩, some "up", true⟩, true, "t"⟩).uploaded =
          some (fn, m) ∧ m.layers = [backgroundLayer] :=
  detection_failure_nonfatal "bkt" _ _ [7] ⟨"tok", "api"⟩ "up"
    (by decide) rfl (by decide) rfl rfl rfl rfl

theorem item_body_error_messages (bucketId : String) (p : Project) (w : ItemWorld)
    (msg : String) (up : Option (String × Manifest)) (t : List RemoteCall)
    (h : item_body bucketId p w = (.error msg, up, t)) :
    msg = "No image URL found" ∨ msg = "Background removal failed" ∨
      msg = "Upload to Backblaze failed" := by
  rcases w with ⟨bg, det, b2, sw, now⟩
  rcases b2 with ⟨auth, upResp, put⟩
  unfold item_body at h
  by_cases hc : p.originalImageUrl.getD "" = ""
  · simp [hc] at h
    exact Or.inl h.1.symm
  · cases bg with
    | none =>
      simp [hc] at h
      exact Or.inr (Or.inl h.1.symm)
    | some bytes =>
      cases bytes with
      | nil =>
        simp [hc] at h
        exact Or.inr (Or.inl h.1.symm)
      | cons x xs =>
        cases auth with
        | none =>
          simp [hc, upload_to_backblaze] at h
          exact Or.inr (Or.inr h.1.symm)
        | some a =>
          cases upResp with
          | none =>
            simp [hc, upload_to_backblaze] at h
            exact Or.inr (Or.inr h.1.symm)
          | some v =>
            cases put with
            | false =>
              simp [hc, upload_to_backblaze] at h
              exact Or.inr (Or.inr h.1.symm)
            | true =>
              simp [hc, upload_to_backblaze] at h

/-- C10. Failed-item frame: whenever an item is finalized as failed, the
status payload carries only `status`, `updatedAt`, and a non-empty
`error` — `layerUrls`, `layersCount`, and `completedAt` are all absent, so
a failed item never gets completion metadata. -/
theorem failed_item_frame (bucketId : String) (p : Project) (w : ItemWorld)
    (h : (process_item bucketId p w).finalStatus = "failed") :
    (process_item bucketId p w).payload.status = "failed" ∧
    (process_item bucketId p w).payload.updatedAt = true ∧
    (process_item bucketId p w).payload.layerUrls = none ∧
    (process_item bucketId p w).payload.layersCount = none ∧
    (process_item bucketId p w).payload.completedAt = false ∧
    ∃ msg, msg ≠ "" ∧ (process_item bucketId p w).payload.error = some msg := by
  rcases hib : item_body bucketId p w with ⟨res, up, t⟩
  cases res with
  | ok v =>
    exfalso
    simp [process_item, hib] at h
  | error msg =>
    have hmsg := item_body_error_messages bucketId p w msg up t hib
    have hne : msg ≠ "" := by
      rcases hmsg with rfl | rfl | rfl <;> decide
    have hts : truthyStr (some msg) = true := by
      simp [truthyStr, hne]
    refine ⟨?_, ?_, ?_, ?_, ?_, msg, hne, ?_⟩ <;>
      simp [process_item, hib, update_firestore_payload, truthyList, hts]

/-- C10 witness: a concrete failed item (empty source URL) has no
completion metadata in its payload. -/
theorem failed_item_frame_witness :
    (process_item "bkt" ⟨some "p3", some "u3", some "", none⟩
      ⟨some [1], .failed, ⟨none, none, false⟩, true, "t"⟩).payload.status = "failed" ∧
    (process_item "bkt" ⟨some "p3", some "u3", some "", none⟩
      ⟨some [1], .failed, ⟨none, none, false⟩, true, "t"⟩).payload.updatedAt = true ∧
    (process_item "bkt" ⟨some "p3", some "u3", some "", none⟩
      ⟨some [1], .failed, ⟨none, none, false⟩, true, "t"⟩).payload.layerUrls = none ∧
    (process_item "bkt" ⟨some "p3", some "u3", some "", none⟩
      ⟨some [1], .failed, ⟨none, none, false⟩, true, "t"⟩).payload.layersCount = none ∧
    (process_item "bkt" ⟨some "p3", some "u3", some "", none⟩
      ⟨some [1], .failed, ⟨none, none, false⟩, true, "t"⟩).payload.completedAt = false ∧
    ∃ msg, msg ≠ "" ∧
      (process_item "bkt" ⟨some "p3", some "u3", some "", none⟩
        ⟨some [1], .failed, ⟨none, none, false⟩, true, "t"⟩).payload.error = some msg :=
  failed_item_frame "bkt" _ _ rfl

/-- The end-to-end scenario item: `itemId "p1"`, `ownerId "u1"`,
`sourceLocator "https://x/img.png"`, `outputFormat "tiff"` (in the code's
field names). -/
def scenarioProject : Project :=
  { projectId := some "p1", userId := some "u1",
    originalImageUrl := some "https://x/img.png", format := some "tiff" }

/-- The end-to-end scenario world: background removal succeeds, detection
returns `[{label:"cat",score:0.9},{label:"dog",score:0.5}]`, and every
Backblaze call and the status write succeed. -/
def scenarioWorld : ItemWorld :=
  { bgRemoval := some [1]
    detection := .list [DetObj.dict (some "cat") (some (9/10)),
                        DetObj.dict (some "dog") (some (1/2))]
    b2 := { auth := some ⟨"tok", "api"⟩, uploadUrlResp := some "up", putOk := true }
    statusWriteOk := true
    now := "2026-10-12T00:00:00" }

/-- C2 counterexample: in the end-to-end scenario the item completes, but
the final status write's `layersCount` is the length of `layerUrls` — 1,
the single manifest URL — not 3 as the claim states. -/
theorem end_to_end_layers_count_counterexample :
    (process_item "bkt" scenarioProject scenarioWorld).finalStatus = "completed" ∧
    (process_item "bkt" scenarioProject scenarioWorld).payload.layersCount = some 1 ∧
    ¬ (process_item "bkt" scenarioProject scenarioWorld).payload.layersCount = some 3 := by
  refine ⟨rfl, rfl, ?_⟩
  intro h
  simp [process_item, scenarioProject, scenarioWorld, item_body, upload_to_backblaze,
    update_firestore_payload, truthyList, truthyStr] at h

/-- C2 (amended). End-to-end scenario: the manifest has exactly the three
layers Background, "Layer 1 - cat" (confidence 0.9), "Layer 2 - dog"
(confidence 0.5) in that order (and records `layersCount` 3), it is
uploaded under `layers/u1/p1/layers.json`, the final status written is
completed with `layerUrls` holding that single manifest URL — and the
written `layersCount` is therefore 1, the number of layer URLs, not 3. -/
theorem end_to_end_scenario :
    (process_item "bkt" scenarioProject scenarioWorld).finalStatus = "completed" ∧
    (process_item "bkt" scenarioProject scenarioWorld).uploaded =
      some ("layers/" ++ "u1" ++ "/" ++ "p1" ++ "/layers.json",
        { format := "tiff"
          layersCount := 3
          layers := [backgroundLayer,
            { name := "Layer 1 - cat", type := "object", confidence := some (9/10) },
            { name := "Layer 2 - dog", type := "object", confidence := some (1/2) }]
          processedAt := "2026-10-12T00:00:00" }) ∧
    (process_item "bkt" scenarioProject scenarioWorld).payload.status = "completed" ∧
    (process_item "bkt" scenarioProject scenarioWorld).payload.layerUrls =
      some ["https://f000.backblazeb2.com/file/" ++ "bkt" ++ "/" ++
        ("layers/" ++ "u1" ++ "/" ++ "p1" ++ "/layers.json")] ∧
    (process_item "bkt" scenarioProject scenarioWorld).payload.layersCount = some 1 ∧
    (process_item "bkt" scenarioProject scenarioWorld).payload.completedAt = true := by
  refine ⟨rfl, ?_, rfl, rfl, rfl, rfl⟩
  rfl

/-- C1. Per-item failure isolation: (a) in any batch, the item at any
position is processed exactly as it would be alone — whatever failures
(validation, background removal, detection, synthesis, upload, or the
status write itself) occur for the items before or after it, each item
still gets its own outcome; (b) a failed status-update write is swallowed:
it changes nothing in an item's outcome except the recorded write flag, so
it is never re-raised past the item boundary. -/
theorem failure_isolation (bucketId : String) (pre post : List (Project × ItemWorld))
    (p : Project) (w : ItemWorld) :
    (process_batch bucketId (pre ++ (p, w) :: post) =
      process_batch bucketId pre ++ process_item bucketId p w :: process_batch bucketId post) ∧
    (∀ s : Bool, process_item bucketId p { w with statusWriteOk := s } =
      { process_item bucketId p w with statusWriteOk := s }) := by
  constructor
  · simp [process_batch]
  · intro s
    rcases w with ⟨bg, det, b2, sw, now⟩
    have hbody : item_body bucketId p ⟨bg, det, b2, s, now⟩ =
        item_body bucketId p ⟨bg, det, b2, sw, now⟩ := rfl
    unfold process_item
    rw [hbody]
    rcases item_body bucketId p ⟨bg, det, b2, sw, now⟩ with ⟨res, up, t⟩
    cases res <;> rfl
